import Mathlib

/-
Verification of the workerd Durable Object SQL storage layer
(Authorizer, statement/cursor lifecycle, Transaction Coordinator,
Durable Write Gateway), as exercised by src/workerd/api/sql-test.js.

The implementation itself (C++ side of workerd) is not part of the
source tree here; only its JS test suite is. The components are
therefore modelled from the specification document, with behaviour
pinned to the concrete observations made by sql-test.js wherever the
test fixes a behaviour.
-/

/-! ### Key-value stores

Keys are strings, values are integers (the test only stores numbers).
A store is an association list; lookup returns the first match. -/

abbrev Key := String

abbrev Val := Int

/-- Lookup of a key in an association list: first binding wins. -/
def lookupKV : List (Key × Val) → Key → Option Val
  | [], _ => none
  | (k, v) :: rest, q => if q = k then some v else lookupKV rest q

/-- Insert-or-replace a binding, keeping keys unique. -/
def upsertKV : List (Key × Val) → Key → Val → List (Key × Val)
  | [], k, v => [(k, v)]
  | (k0, v0) :: rest, k, v =>
    if k = k0 then (k, v) :: rest else (k0, v0) :: upsertKV rest k v

/-- Apply a write buffer (newest binding first) onto a durable store.
The buffer is applied back-to-front so that newer writes win. -/
def applyBuf (d : List (Key × Val)) : List (Key × Val) → List (Key × Val)
  | [] => d
  | (k, v) :: rest => upsertKV (applyBuf d rest) k v

/-! ### Durable Write Gateway state

Modelled from the spec: the Durable Write Gateway holds the durably
committed key-value state plus a WriteBuffer of pending, not-yet-durable
mutations (last-write-wins within the buffering window); `put` buffers
immediately and is visible to subsequent `get` in the same instance,
and the buffer flushes atomically at a scheduling boundary. -/

structure GatewayState where
  durable : List (Key × Val)
  buffer : List (Key × Val)
deriving Repr, DecidableEq

/-- Modelled from the spec: `get(key)` sees buffered writes first, then
durable state. -/
def getVisible (s : GatewayState) (k : Key) : Option Val :=
  match lookupKV s.buffer k with
  | some v => some v
  | none => lookupKV s.durable k

/-- Modelled from the spec: `put(key, value)` buffers into the
WriteBuffer immediately (newest write shadows older ones). -/
def putBuf (s : GatewayState) (k : Key) (v : Val) : GatewayState :=
  { durable := s.durable, buffer := (k, v) :: s.buffer }

/-- Modelled from the spec: the implicit per-turn commit — the
WriteBuffer flushes atomically into the durable store at a scheduling
boundary (or when the outermost explicit transaction commits). -/
def flushState (s : GatewayState) : GatewayState :=
  { durable := applyBuf s.durable s.buffer, buffer := [] }

/-! ### Transaction Coordinator

Modelled from the spec: `transaction(work)` delegates to the
Transaction Coordinator, which manages a stack of nested
TransactionFrames. The body `work` is represented as a deep embedding:
it can put keys, request rollback of the current frame, fail, run in
sequence, or open a nested transaction frame (`sub`). -/

inductive Work where
  | skip : Work
  | put (k : Key) (v : Val) : Work
  | seq (a b : Work) : Work
  | rollback : Work
  | fail (e : Nat) : Work
  | sub (w : Work) : Work
deriving Repr, DecidableEq

/-- Modelled from the spec: running a transaction body inside one frame.
Returns the state after the body, the failure propagating out of the
body (if any), and whether rollback was requested on the current frame.
An explicit `rollback()` sets the flag and lets the body continue; a
failure aborts the rest of the body and also sets the flag. A nested
frame (`sub`) maps to a savepoint: on clean completion the savepoint is
released and its writes survive; on rollback or failure the state
reverts to the savepoint and the rollback request propagates to the
enclosing frame (failures are re-raised unchanged). -/
def runWork : Work → GatewayState → GatewayState × Option Nat × Bool
  | Work.skip, s => (s, none, false)
  | Work.put k v, s => (putBuf s k v, none, false)
  | Work.rollback, s => (s, none, true)
  | Work.fail e, s => (s, some e, true)
  | Work.seq a b, s =>
    match runWork a s with
    | (s1, some e, rb) => (s1, some e, rb)
    | (s1, none, rb1) =>
      match runWork b s1 with
      | (s2, f2, rb2) => (s2, f2, rb1 || rb2)
  | Work.sub w, s =>
    match runWork w s with
    | (_, some e, _) => (s, some e, true)
    | (_, none, true) => (s, none, true)
    | (s1, none, false) => (s1, none, false)

/-- Modelled from the spec: the outermost `transaction(work)` call.
It first closes any open implicit per-turn transaction (flushing the
WriteBuffer), opens a real engine transaction, and runs the body at
depth 1. On clean completion the transaction commits and the buffered
writes become durable. On rollback request or failure every mutation
since the outermost frame opened is discarded; a triggering failure is
re-raised unchanged while an explicit rollback raises nothing. -/
def transaction (w : Work) (s : GatewayState) : GatewayState × Option Nat :=
  let s0 := flushState s
  match runWork w s0 with
  | (s1, none, false) => (flushState s1, none)
  | (_, none, true) => (s0, none)
  | (_, some e, _) => (s0, some e)

/-- Does the body ever put the given key (in any frame)? -/
def writesKey (k : Key) : Work → Bool
  | Work.skip => false
  | Work.put k0 _ => decide (k = k0)
  | Work.seq a b => writesKey k a || writesKey k b
  | Work.rollback => false
  | Work.fail _ => false
  | Work.sub w => writesKey k w

/-- Wrap a body in a given number of additional nested transaction
frames. -/
def nestW : Nat → Work → Work
  | 0, w => w
  | n + 1, w => Work.sub (nestW n w)

/-! ### Actor instance and abort

Modelled from the spec: an actor instance owns a durable store, a
WriteBuffer and an ActorLifecycleState. `abort(reason)` immediately
discards all buffered undurable mutations, transitions the instance to
Aborted, and always raises a failure tagged with a reset marker; a
later request against the same actor identity is served by a freshly
constructed instance reflecting only durably committed state. -/

structure ActorInstance where
  durable : List (Key × Val)
  buffer : List (Key × Val)
  aborted : Bool
deriving Repr, DecidableEq

/-- Modelled from the spec: the failure raised by `abort(reason)`,
tagged with a reset marker (the test observes `err.durableObjectReset
=== true`). -/
structure AbortFailure where
  reason : String
  durableObjectReset : Bool
deriving Repr, DecidableEq

/-- Modelled from the spec: `get` on a live instance sees buffered
writes over durable state. -/
def instGet (i : ActorInstance) (k : Key) : Option Val :=
  match lookupKV i.buffer k with
  | some v => some v
  | none => lookupKV i.durable k

/-- Modelled from the spec: `put` buffers the mutation immediately. -/
def instPut (i : ActorInstance) (k : Key) (v : Val) : ActorInstance :=
  { durable := i.durable, buffer := (k, v) :: i.buffer, aborted := i.aborted }

/-- Modelled from the spec: `abort(reason)` discards the WriteBuffer,
marks the instance Aborted and produces a reset-tagged failure. -/
def abortInstance (reason : String) (i : ActorInstance) :
    ActorInstance × AbortFailure :=
  ({ durable := i.durable, buffer := [], aborted := true },
   { reason := reason, durableObjectReset := true })

/-- Modelled from the spec: a later request against the same logical
actor identity is served by a freshly constructed instance reflecting
only what was durably committed before. -/
def freshInstance (i : ActorInstance) : ActorInstance :=
  { durable := i.durable, buffer := [], aborted := false }

/-! ### Error taxonomy

Modelled from the spec error-handling design: policy denial, parameter
mismatch, malformed input and stale-cursor reuse are distinct,
pattern-matchable failure classes. -/

inductive SqlError where
  | authorization : SqlError
  | parameterCount : SqlError
  | syntaxErr : SqlError
  | emptyStatement : SqlError
  | cursorInvalidated : SqlError
deriving Repr, DecidableEq

/-! ### Authorizer

Modelled from the spec: a pure policy function consulted during every
statement compilation, given a classification of the action being
compiled and the names involved. -/

inductive SqlAction where
  | createTable (name : String) : SqlAction
  | readColumn (table col : String) : SqlAction
  | writeTable (name : String) : SqlAction
  | callFunction (name : String) : SqlAction
  | pragmaRead (name : String) (arg : Option String) : SqlAction
  | pragmaWrite (name : String) (value : String) : SqlAction
  | beginTxn : SqlAction
  | savepoint (name : String) : SqlAction
deriving Repr, DecidableEq

/-- Character-list prefix test (used for reserved-name checks). -/
def leadsWith : List Char → List Char → Bool
  | [], _ => true
  | _ :: _, [] => false
  | a :: as, b :: bs => a == b && leadsWith as bs

/-- Modelled from the spec: table and column names under the reserved
internal-bookkeeping prefix are denied for all operations. The test
pins the prefix as the one of the hidden KV table. -/
def reservedName (n : String) : Bool :=
  leadsWith ("_cf_".data) n.data

/-- Modelled from the spec: engine-internal functions are denied; the
test pins the denied family as the engine-version style functions. -/
def reservedFunction (n : String) : Bool :=
  leadsWith ("sqlite_".data) n.data

/-- ASCII lower-casing of one character. -/
def lowerChar (c : Char) : Char :=
  if 65 ≤ c.toNat && c.toNat ≤ 90 then Char.ofNat (c.toNat + 32) else c

/-- Whitespace recognised when trimming pragma values. -/
def isSpaceChar (c : Char) : Bool :=
  c == ' ' || c == '\t' || c == '\n' || c == '\r'

/-- Trim surrounding whitespace from a character list. -/
def trimChars (l : List Char) : List Char :=
  ((l.dropWhile isSpaceChar).reverse.dropWhile isSpaceChar).reverse

/-- Strip one matching pair of surrounding single or double quotes, if
present; otherwise return the list unchanged. -/
def stripQuotes (l : List Char) : List Char :=
  match l with
  | [] => []
  | c :: rest =>
    if (c == '\'' || c == '"') && rest.getLast? == some c then
      rest.dropLast
    else
      c :: rest

/-- The truthy boolean-pragma tokens, lower-case. -/
def truthyTokens : List (List Char) :=
  ["true".data, "on".data, "yes".data, "1".data]

/-- The falsy boolean-pragma tokens, lower-case. -/
def falsyTokens : List (List Char) :=
  ["false".data, "off".data, "no".data, "0".data]

/-- Normalisation applied to a boolean pragma value before comparison:
trim surrounding whitespace, strip one pair of surrounding quotes,
lower-case. -/
def normalizeBoolValue (s : String) : List Char :=
  (stripQuotes (trimChars s.data)).map lowerChar

/-- Modelled from the spec: boolean pragma values are parsed
case-insensitively, accepting bare or quoted true/false/on/off/yes/no/1/0
with surrounding whitespace trimmed. -/
def parseBoolValue (s : String) : Option Bool :=
  let core := normalizeBoolValue s
  if core ∈ truthyTokens then some true
  else if core ∈ falsyTokens then some false
  else none

/-- Pragmas readable but not writable (the test exercises data_version,
max_page_count and page_size). -/
def readOnlyPragmas : List String :=
  ["data_version", "max_page_count", "page_size", "table_list"]

/-- The allow-list of read/write boolean pragma toggles. -/
def boolPragmas : List String :=
  ["foreign_keys"]

/-- Modelled from the spec: the Authorizer decision for one compiled
action. `none` means Allow. All reserved-prefix names are denied,
including creation and introspection; `table_info`-style introspection
is allowed for ordinary user tables; transaction and savepoint control
is denied; read-only pragmas may be read but not written; boolean
toggle pragmas accept only well-formed boolean values — an ill-formed
value is denied with the authorization error, as pinned by sql-test.js
(an invalid value for the foreign-key pragma reports "not authorized").
Everything else is allowed by default. -/
def authorize : SqlAction → Option SqlError
  | SqlAction.createTable n =>
    if reservedName n then some SqlError.authorization else none
  | SqlAction.readColumn t _ =>
    if reservedName t then some SqlError.authorization else none
  | SqlAction.writeTable n =>
    if reservedName n then some SqlError.authorization else none
  | SqlAction.callFunction n =>
    if reservedFunction n then some SqlError.authorization else none
  | SqlAction.beginTxn => some SqlError.authorization
  | SqlAction.savepoint _ => some SqlError.authorization
  | SqlAction.pragmaRead n arg =>
    if n = "table_info" then
      match arg with
      | some t => if reservedName t then some SqlError.authorization else none
      | none => none
    else if n ∈ readOnlyPragmas ∨ n ∈ boolPragmas then none
    else some SqlError.authorization
  | SqlAction.pragmaWrite n v =>
    if n ∈ boolPragmas then
      match parseBoolValue v with
      | some _ => none
      | none => some SqlError.authorization
    else some SqlError.authorization

/-! ### Statement execution

Modelled from the spec: a compiled statement carries its expected
parameter count and the classified actions it performs; every
compilation is preceded by an Authorizer decision and no statement
executes on denial; binding fails with ParameterCountError when the
supplied parameter count differs from the placeholder count. -/

structure Statement where
  nParams : Nat
  actions : List SqlAction
deriving Repr, DecidableEq

/-- Engine state visible to the claims: the set of user tables and the
boolean foreign-key-enforcement flag. -/
structure DbState where
  tables : List String
  foreignKeys : Bool
deriving Repr, DecidableEq

/-- First Authorizer denial among a statement's actions, if any. -/
def firstDenial : List SqlAction → Option SqlError
  | [] => none
  | a :: rest =>
    match authorize a with
    | some e => some e
    | none => firstDenial rest

/-- Effect of one authorized action on the engine state. -/
def applyAction (db : DbState) : SqlAction → DbState
  | SqlAction.createTable n => { tables := n :: db.tables, foreignKeys := db.foreignKeys }
  | SqlAction.pragmaWrite n v =>
    if n = "foreign_keys" then
      match parseBoolValue v with
      | some b => { tables := db.tables, foreignKeys := b }
      | none => db
    else db
  | _ => db

/-- Effects of all of a statement's actions, in order. -/
def applyStmt (db : DbState) (st : Statement) : DbState :=
  st.actions.foldl applyAction db

/-- Modelled from the spec: executing one compiled statement (the path
shared by `exec` and by invoking a PreparedStatement). Compilation runs
the Authorizer for every referenced object and no statement executes on
denial; then binding is checked against the placeholder count; only
then do the statement's effects reach the engine. On failure the engine
state is returned unchanged. -/
def runStmt (db : DbState) (st : Statement) (params : List Val) :
    DbState × Option SqlError :=
  match firstDenial st.actions with
  | some e => (db, some e)
  | none =>
    if params.length = st.nParams then (applyStmt db st, none)
    else (db, some SqlError.parameterCount)

/-! ### Prepared statements and cursors

Modelled from the spec: a Statement carries a monotonically increasing
execution generation counter; a Cursor captures the generation at its
creation and is Invalidated once the Statement's current generation has
advanced past it, checked only after confirming the Cursor is not
already Done. -/

structure PreparedState where
  gen : Nat
deriving Repr, DecidableEq

structure Cursor where
  capturedGen : Nat
  pos : Nat
  done : Bool
deriving Repr, DecidableEq

inductive CursorStatus where
  | Active : CursorStatus
  | Done : CursorStatus
  | Invalidated : CursorStatus
deriving Repr, DecidableEq

/-- Modelled from the spec: re-invoking a PreparedStatement advances the
statement's generation and returns a fresh Cursor capturing it. -/
def invokePrepared (p : PreparedState) : PreparedState × Cursor :=
  ({ gen := p.gen + 1 }, { capturedGen := p.gen + 1, pos := 0, done := false })

/-- Derived status of a cursor against the statement's current
generation: Done wins, then staleness, then Active. -/
def cursorStatus (p : PreparedState) (c : Cursor) : CursorStatus :=
  if c.done then CursorStatus.Done
  else if c.capturedGen < p.gen then CursorStatus.Invalidated
  else CursorStatus.Active

/-- Modelled from the spec: one iteration step of a cursor over the
statement's result rows. A Done cursor simply yields no further rows;
iterating an Invalidated cursor fails with CursorInvalidatedError;
otherwise the cursor yields the next row, becoming Done at the end. -/
def stepCursor (p : PreparedState) (rows : List Val) (c : Cursor) :
    Except SqlError (Option Val × Cursor) :=
  if c.done then Except.ok (none, c)
  else if c.capturedGen < p.gen then Except.error SqlError.cursorInvalidated
  else
    match rows.drop c.pos with
    | [] => Except.ok (none, { capturedGen := c.capturedGen, pos := c.pos, done := true })
    | v :: _ => Except.ok (some v, { capturedGen := c.capturedGen, pos := c.pos + 1, done := false })

/-! ### Result rows

Modelled from the spec: a Row is either a keyed mapping (column name to
value) or a raw ordered sequence, two views over the same fixed internal
representation. The test pins the keyed name of an un-aliased column to
the literal SQL expression text (e.g. "123", "? + ?"). SELECT
expressions are modelled by a small expression language sufficient for
the test's numeric scenarios. -/

inductive Expr where
  | lit (n : Int) : Expr
  | param (i : Nat) : Expr
  | add (a b : Expr) : Expr
deriving Repr, DecidableEq

/-- The literal SQL source text of an expression; a parameter
placeholder prints as a question mark. -/
def exprText : Expr → String
  | Expr.lit n => toString n
  | Expr.param _ => "?"
  | Expr.add a b => exprText a ++ " + " ++ exprText b

/-- Evaluation of an expression against the bound parameters. -/
def exprEval (params : List Val) : Expr → Val
  | Expr.lit n => n
  | Expr.param i => params.getD i 0
  | Expr.add a b => exprEval params a + exprEval params b

/-- One SELECT result column: its expression and its optional AS alias. -/
structure SelectCol where
  expr : Expr
  asName : Option String
deriving Repr, DecidableEq

/-- Modelled from the spec and test: the keyed-row name of a column is
its AS alias when present, else the literal SQL expression text. -/
def colKey (c : SelectCol) : String :=
  match c.asName with
  | some a => a
  | none => exprText c.expr

/-- The keyed-row view of one result row. -/
def keyedRow (cols : List SelectCol) (params : List Val) : List (String × Val) :=
  cols.map (fun c => (colKey c, exprEval params c.expr))

/-- The raw view of one result row: the same values as an ordered
sequence in column order. -/
def rawRow (cols : List SelectCol) (params : List Val) : List Val :=
  cols.map (fun c => exprEval params c.expr)

/-! ### Size accounting

Modelled from the spec: the gateway exposes a process-local,
non-durable, configurable voluntary size limit. The test pins its
initial value. -/

structure SizeAccounting where
  voluntarySizeLimit : Int
deriving Repr, DecidableEq

/-- Modelled from the spec and test: the initial voluntary size limit is
the engine's maximum page count times the page size in bytes. -/
def initialSizeAccounting : SizeAccounting :=
  { voluntarySizeLimit := 1073741823 * 4096 }

/-- Modelled from the spec: assigning the voluntary size limit stores
the given value. -/
def setVoluntarySizeLimit (n : Int) (_s : SizeAccounting) : SizeAccounting :=
  { voluntarySizeLimit := n }

/-! ### Store lemmas -/

/-- Lookup after insert-or-replace: the inserted key maps to the new
value, other keys are untouched. -/
theorem lookupKV_upsertKV (l : List (Key × Val)) (k : Key) (v : Val) (q : Key) :
    lookupKV (upsertKV l k v) q = if q = k then some v else lookupKV l q := by
  induction l with
  | nil => simp [upsertKV, lookupKV]
  | cons p t ih =>
    obtain ⟨k0, v0⟩ := p
    by_cases hk : k = k0
    · subst hk
      by_cases hq : q = k
      · simp [upsertKV, lookupKV, hq]
      · simp [upsertKV, lookupKV, hq]
    · by_cases hq0 : q = k0
      · subst hq0
        have hqk : ¬ q = k := fun h => hk h.symm
        simp [upsertKV, lookupKV, hk, hqk]
      · simp [upsertKV, lookupKV, hk, hq0, ih]

/-- Lookup through an applied buffer: buffered bindings shadow durable
ones. -/
theorem lookupKV_applyBuf (d b : List (Key × Val)) (q : Key) :
    lookupKV (applyBuf d b) q =
      match lookupKV b q with
      | some v => some v
      | none => lookupKV d q := by
  induction b with
  | nil => simp [applyBuf, lookupKV]
  | cons p t ih =>
    obtain ⟨k, v⟩ := p
    by_cases hq : q = k
    · simp [applyBuf, lookupKV_upsertKV, lookupKV, hq]
    · simp [applyBuf, lookupKV_upsertKV, lookupKV, hq, ih]

/-- Flushing the WriteBuffer does not change the visible value of any
key. -/
theorem getVisible_flushState (s : GatewayState) (k : Key) :
    getVisible (flushState s) k = getVisible s k := by
  have h := lookupKV_applyBuf s.durable s.buffer k
  simp only [getVisible, flushState, lookupKV]
  exact h

/-- A buffered put is immediately visible. -/
theorem getVisible_putBuf_same (s : GatewayState) (k : Key) (v : Val) :
    getVisible (putBuf s k v) k = some v := by
  simp [getVisible, putBuf, lookupKV]

/-- A buffered put leaves other keys untouched. -/
theorem getVisible_putBuf_ne (s : GatewayState) (k : Key) (v : Val) (q : Key)
    (h : ¬ q = k) :
    getVisible (putBuf s k v) q = getVisible s q := by
  simp [getVisible, putBuf, lookupKV, h]

/-! ### Transaction body lemmas -/

/-- A body that never puts a key leaves that key's visible value
unchanged, whatever rollbacks or failures happen inside. -/
theorem runWork_preserves_unwritten (w : Work) :
    ∀ s : GatewayState, ∀ k : Key, writesKey k w = false →
      getVisible (runWork w s).1 k = getVisible s k := by
  induction w with
  | skip => intro s k _; rfl
  | put k0 v =>
    intro s k h
    simp only [writesKey, decide_eq_false_iff_not] at h
    simpa [runWork] using getVisible_putBuf_ne s k0 v k h
  | rollback => intro s k _; rfl
  | fail e => intro s k _; rfl
  | seq a b iha ihb =>
    intro s k h
    simp only [writesKey, Bool.or_eq_false_iff] at h
    obtain ⟨ha, hb⟩ := h
    rcases hra : runWork a s with ⟨s1, f1, rb1⟩
    have h1 : getVisible s1 k = getVisible s k := by
      have := iha s k ha
      rw [hra] at this
      exact this
    cases f1 with
    | some e => simp [runWork, hra, h1]
    | none =>
      rcases hrb : runWork b s1 with ⟨s2, f2, rb2⟩
      have h2 : getVisible s2 k = getVisible s1 k := by
        have := ihb s1 k hb
        rw [hrb] at this
        exact this
      simp [runWork, hra, hrb, h2, h1]
  | sub w ih =>
    intro s k h
    simp only [writesKey] at h
    rcases hrw : runWork w s with ⟨s1, f1, rb1⟩
    have h1 : getVisible s1 k = getVisible s k := by
      have := ih s k h
      rw [hrw] at this
      exact this
    cases f1 with
    | some e => simp [runWork, hrw]
    | none => cases rb1 <;> simp [runWork, hrw, h1]

/-- A failure propagates unchanged out of any number of nested frames. -/
theorem runWork_nestW_failure (n : Nat) (w : Work) (s : GatewayState) :
    (runWork (nestW n w) s).2.1 = (runWork w s).2.1 := by
  induction n with
  | zero => rfl
  | succ m ih =>
    show (runWork (Work.sub (nestW m w)) s).2.1 = _
    rcases hr : runWork (nestW m w) s with ⟨s1, f1, rb1⟩
    have hf : f1 = (runWork w s).2.1 := by
      have := ih
      rw [hr] at this
      exact this
    cases f1 with
    | some e =>
      rw [← hf]
      simp [runWork, hr]
    | none =>
      rw [← hf]
      cases rb1 <;> simp [runWork, hr]

/-- A rollback request propagates out of any number of nested frames
(when no failure occurs), with no failure being raised. -/
theorem runWork_nestW_rollback (n : Nat) (w : Work) (s : GatewayState)
    (hf : (runWork w s).2.1 = none) (hrb : (runWork w s).2.2 = true) :
    (runWork (nestW n w) s).2.1 = none ∧ (runWork (nestW n w) s).2.2 = true := by
  induction n with
  | zero => exact ⟨hf, hrb⟩
  | succ m ih =>
    show (runWork (Work.sub (nestW m w)) s).2.1 = none ∧
      (runWork (Work.sub (nestW m w)) s).2.2 = true
    rcases hr : runWork (nestW m w) s with ⟨s1, f1, rb1⟩
    obtain ⟨ihf, ihrb⟩ := ih
    rw [hr] at ihf ihrb
    simp only at ihf ihrb
    subst ihf
    subst ihrb
    simp [runWork, hr]

/-! ### Authorizer lemmas -/

/-- Every Authorizer denial is reported as the authorization error. -/
theorem authorize_denials_are_authorization (a : SqlAction) (e : SqlError)
    (h : authorize a = some e) : e = SqlError.authorization := by
  cases a <;> simp only [authorize] at h <;>
    (repeat' split at h) <;> simp_all

/-- If any action of a statement is denied, compiling the statement
stops at an authorization denial. -/
theorem firstDenial_of_denied_mem (acts : List SqlAction) (a : SqlAction)
    (ha : a ∈ acts) (hd : authorize a ≠ none) :
    firstDenial acts = some SqlError.authorization := by
  induction acts with
  | nil => cases ha
  | cons b rest ih =>
    rcases hb : authorize b with _ | e
    · have hstep : firstDenial (b :: rest) = firstDenial rest := by
        simp [firstDenial, hb]
      rcases List.mem_cons.mp ha with hab | har
      · subst hab
        exact absurd hb hd
      · rw [hstep]
        exact ih har
    · have he := authorize_denials_are_authorization b e hb
      subst he
      simp [firstDenial, hb]

/-- Falsy boolean-pragma tokens are never truthy ones. -/
theorem falsy_not_truthy (x : List Char) (h : x ∈ falsyTokens) :
    x ∉ truthyTokens := by
  simp only [falsyTokens, List.mem_cons, List.not_mem_nil, or_false] at h
  rcases h with h | h | h | h <;> subst h <;> decide

/-! ### Claims -/

/-- C1: `abort(reason)` discards all buffered, not-yet-durable
mutations and always raises a failure tagged with a reset marker; a
`put(k, v)` performed immediately before the abort is never observed by
a later `get(k)` on a freshly acquired instance of the same actor
identity, which reflects only the state that was durably committed
before the abort. -/
theorem abort_discards_buffered_writes (i : ActorInstance) (k : Key) (v : Val)
    (reason : String) :
    (abortInstance reason (instPut i k v)).2.durableObjectReset = true ∧
    (abortInstance reason (instPut i k v)).1.buffer = [] ∧
    (abortInstance reason (instPut i k v)).1.aborted = true ∧
    (abortInstance reason (instPut i k v)).1.durable = i.durable ∧
    (∀ q : Key,
      instGet (freshInstance (abortInstance reason (instPut i k v)).1) q =
        lookupKV i.durable q) := by
  refine ⟨rfl, rfl, rfl, rfl, fun q => ?_⟩
  rfl

/-- C2: for every nesting depth, a rollback requested inside the
innermost frame rolls back every frame up to and including the
outermost one, discarding every mutation performed since the outermost
frame opened — including mutations of inner frames that completed
without rollback — so that afterwards every key reads as it did before
the outermost frame opened, and no failure is raised. -/
theorem nested_rollback_flattens (n : Nat) (pre inner post : Work)
    (s : GatewayState)
    (hnf : (runWork (Work.seq pre (Work.seq (nestW n (Work.seq inner Work.rollback)) post))
        (flushState s)).2.1 = none) :
    transaction (Work.seq pre (Work.seq (nestW n (Work.seq inner Work.rollback)) post)) s =
      (flushState s, none) ∧
    ∀ q : Key,
      getVisible (transaction
          (Work.seq pre (Work.seq (nestW n (Work.seq inner Work.rollback)) post)) s).1 q =
        getVisible s q := by
  rcases hp : runWork pre (flushState s) with ⟨s1, fp, rbp⟩
  cases fp with
  | some e =>
    exfalso
    simp [runWork, hp] at hnf
  | none =>
    rcases hnest : runWork (nestW n (Work.seq inner Work.rollback)) s1 with ⟨s2, fn, rbn⟩
    cases fn with
    | some e =>
      exfalso
      simp [runWork, hp, hnest] at hnf
    | none =>
      rcases hpost : runWork post s2 with ⟨s3, fq, rbq⟩
      cases fq with
      | some e =>
        exfalso
        simp [runWork, hp, hnest, hpost] at hnf
      | none =>
        have hinner : (runWork inner s1).2.1 = none := by
          have hfail := runWork_nestW_failure n (Work.seq inner Work.rollback) s1
          rw [hnest] at hfail
          rcases hi : runWork inner s1 with ⟨si, fi, rbi⟩
          cases fi with
          | some e => simp [runWork, hi] at hfail
          | none => rfl
        have hseq : (runWork (Work.seq inner Work.rollback) s1).2.1 = none ∧
            (runWork (Work.seq inner Work.rollback) s1).2.2 = true := by
          rcases hi : runWork inner s1 with ⟨si, fi, rbi⟩
          rw [hi] at hinner
          simp only at hinner
          subst hinner
          simp [runWork, hi]
        have hrb := runWork_nestW_rollback n (Work.seq inner Work.rollback) s1
          hseq.1 hseq.2
        rw [hnest] at hrb
        simp only at hrb
        have hrbn : rbn = true := hrb.2
        subst hrbn
        have htrans : transaction
            (Work.seq pre (Work.seq (nestW n (Work.seq inner Work.rollback)) post)) s =
            (flushState s, none) := by
          simp [transaction, runWork, hp, hnest, hpost]
        refine ⟨htrans, fun q => ?_⟩
        rw [htrans]
        exact getVisible_flushState s q

/-- C3: a `put(k, v)` inside a transaction body that completes without
rollback and without failure makes `get(k)` return `v` afterwards (no
later put of `k` in the body); if rollback is requested or the body
fails, `get(k)` afterwards returns the value `k` had before the
transaction, a triggering failure is re-raised unchanged, and an
explicit rollback raises nothing. -/
theorem txn_put_roundtrip (s : GatewayState) (k : Key) (v : Val) :
    (∀ pre post : Work, ∀ s1 : GatewayState,
      runWork (Work.seq pre (Work.seq (Work.put k v) post)) (flushState s) =
        (s1, none, false) →
      writesKey k post = false →
      (transaction (Work.seq pre (Work.seq (Work.put k v) post)) s).2 = none ∧
      getVisible (transaction (Work.seq pre (Work.seq (Work.put k v) post)) s).1 k =
        some v) ∧
    (∀ w : Work, ∀ s1 : GatewayState,
      runWork w (flushState s) = (s1, none, true) →
      (transaction w s).2 = none ∧
      getVisible (transaction w s).1 k = getVisible s k) ∧
    (∀ w : Work, ∀ s1 : GatewayState, ∀ rb : Bool, ∀ e : Nat,
      runWork w (flushState s) = (s1, some e, rb) →
      (transaction w s).2 = some e ∧
      getVisible (transaction w s).1 k = getVisible s k) := by
  refine ⟨?_, ?_, ?_⟩
  · intro pre post s1 hrun hpost
    have htrans : transaction (Work.seq pre (Work.seq (Work.put k v) post)) s =
        (flushState s1, none) := by
      simp [transaction, hrun]
    rcases hp : runWork pre (flushState s) with ⟨sp, fp, rbp⟩
    cases fp with
    | some e =>
      exfalso
      rw [runWork, hp] at hrun
      simp at hrun
    | none =>
      rcases hq : runWork post (putBuf sp k v) with ⟨sq, fq, rbq⟩
      have hs1 : s1 = sq := by
        rw [runWork, hp] at hrun
        simp only [runWork, hq] at hrun
        exact (Prod.mk.injEq _ _ _ _ ▸ hrun).1.symm
      have hkeep : getVisible sq k = getVisible (putBuf sp k v) k := by
        have := runWork_preserves_unwritten post (putBuf sp k v) k hpost
        rw [hq] at this
        exact this
      refine ⟨by rw [htrans], ?_⟩
      rw [htrans]
      show getVisible (flushState s1) k = some v
      rw [getVisible_flushState, hs1, hkeep, getVisible_putBuf_same]
  · intro w s1 hrun
    have htrans : transaction w s = (flushState s, none) := by
      simp [transaction, hrun]
    rw [htrans]
    exact ⟨rfl, getVisible_flushState s k⟩
  · intro w s1 rb e hrun
    have htrans : transaction w s = (flushState s, some e) := by
      simp [transaction, hrun]
    rw [htrans]
    exact ⟨rfl, getVisible_flushState s k⟩

/-- C4: every statement whose compilation touches a reserved-prefix
table, column, table-introspection argument or reserved engine function
fails with the authorization error and leaves the engine state
unchanged — creation, column reads and `table_info` introspection of
reserved tables included — while `table_info` introspection of an
ordinary user table succeeds. -/
theorem reserved_names_denied (db : DbState) (params : List Val) (np : Nat)
    (n f m c : String)
    (hn : reservedName n = true) (hf : reservedFunction f = true)
    (hm : reservedName m = false) :
    runStmt db (Statement.mk np [SqlAction.createTable n]) params =
      (db, some SqlError.authorization) ∧
    runStmt db (Statement.mk np [SqlAction.readColumn n c]) params =
      (db, some SqlError.authorization) ∧
    runStmt db (Statement.mk np [SqlAction.pragmaRead "table_info" (some n)]) params =
      (db, some SqlError.authorization) ∧
    runStmt db (Statement.mk np [SqlAction.callFunction f]) params =
      (db, some SqlError.authorization) ∧
    (runStmt db (Statement.mk 0 [SqlAction.pragmaRead "table_info" (some m)]) []).2 =
      none := by
  refine ⟨?_, ?_, ?_, ?_, ?_⟩ <;>
    simp [runStmt, firstDenial, authorize, hn, hf, hm]

/-- C5 counterexample: the claim says an ill-formed boolean pragma
value is denied with a syntax-style error, but on the input `abcd`,
pinned by sql-test.js to report "not authorized", the denial is the
authorization error, which is not the syntax error class. -/
theorem bool_pragma_syntax_error_refuted :
    (runStmt (DbState.mk [] false)
        (Statement.mk 0 [SqlAction.pragmaWrite "foreign_keys" "abcd"]) []).2 =
      some SqlError.authorization ∧
    SqlError.authorization ≠ SqlError.syntaxErr := by
  constructor
  · decide
  · decide

/-- C5 (amended): a boolean pragma write is accepted exactly when the
value, after trimming surrounding whitespace and optional single or
double quotes, case-insensitively equals one of
true/false/on/off/yes/no/1/0; truthy forms set the flag and falsy forms
clear it; any other value is denied with the authorization error
("not authorized"). -/
theorem bool_pragma_value_parsing (v : String) (db : DbState) :
    ((runStmt db (Statement.mk 0 [SqlAction.pragmaWrite "foreign_keys" v]) []).2 = none ↔
      (normalizeBoolValue v ∈ truthyTokens ∨ normalizeBoolValue v ∈ falsyTokens)) ∧
    (normalizeBoolValue v ∈ truthyTokens →
      runStmt db (Statement.mk 0 [SqlAction.pragmaWrite "foreign_keys" v]) [] =
        (DbState.mk db.tables true, none)) ∧
    (normalizeBoolValue v ∈ falsyTokens →
      runStmt db (Statement.mk 0 [SqlAction.pragmaWrite "foreign_keys" v]) [] =
        (DbState.mk db.tables false, none)) ∧
    (¬ (normalizeBoolValue v ∈ truthyTokens ∨ normalizeBoolValue v ∈ falsyTokens) →
      runStmt db (Statement.mk 0 [SqlAction.pragmaWrite "foreign_keys" v]) [] =
        (db, some SqlError.authorization)) := by
  have hstmt : runStmt db (Statement.mk 0 [SqlAction.pragmaWrite "foreign_keys" v]) [] =
      match parseBoolValue v with
      | some b => (DbState.mk db.tables b, none)
      | none => (db, some SqlError.authorization) := by
    cases hp : parseBoolValue v with
    | some b =>
      simp [runStmt, firstDenial, authorize, boolPragmas, applyStmt, applyAction, hp]
    | none =>
      simp [runStmt, firstDenial, authorize, boolPragmas, hp]
  have hparse : parseBoolValue v =
      if normalizeBoolValue v ∈ truthyTokens then some true
      else if normalizeBoolValue v ∈ falsyTokens then some false
      else none := rfl
  by_cases ht : normalizeBoolValue v ∈ truthyTokens
  · have hp : parseBoolValue v = some true := by rw [hparse, if_pos ht]
    rw [hp] at hstmt
    refine ⟨?_, fun _ => hstmt, fun hfa => absurd ht (falsy_not_truthy _ hfa),
      fun hno => absurd (Or.inl ht) hno⟩
    rw [hstmt]
    simp [ht]
  · by_cases hfa : normalizeBoolValue v ∈ falsyTokens
    · have hp : parseBoolValue v = some false := by rw [hparse, if_neg ht, if_pos hfa]
      rw [hp] at hstmt
      refine ⟨?_, fun h => absurd h ht, fun _ => hstmt,
        fun hno => absurd (Or.inr hfa) hno⟩
      rw [hstmt]
      simp [hfa]
    · have hp : parseBoolValue v = none := by rw [hparse, if_neg ht, if_neg hfa]
      rw [hp] at hstmt
      refine ⟨?_, fun h => absurd h ht, fun h => absurd h hfa, fun _ => hstmt⟩
      rw [hstmt]
      simp [ht, hfa]

/-- C6: re-invoking a PreparedStatement invalidates the Cursor of its
previous invocation exactly when that Cursor had not already reached
Done; iterating the Invalidated Cursor fails with
CursorInvalidatedError, while an already-Done Cursor is unaffected and
simply yields no further rows. -/
theorem reinvoke_invalidates_cursor (p : PreparedState) (c : Cursor)
    (rows : List Val) (hc : c.capturedGen = p.gen) :
    (cursorStatus (invokePrepared p).1 c = CursorStatus.Invalidated ↔ c.done = false) ∧
    (c.done = false →
      stepCursor (invokePrepared p).1 rows c = Except.error SqlError.cursorInvalidated) ∧
    (c.done = true → stepCursor (invokePrepared p).1 rows c = Except.ok (none, c)) := by
  have hlt : c.capturedGen < (invokePrepared p).1.gen := by
    simp [invokePrepared, hc]
  refine ⟨?_, ?_, ?_⟩
  · cases hd : c.done with
    | true => simp [cursorStatus, hd]
    | false => simp [cursorStatus, hd, hlt]
  · intro hd
    simp [stepCursor, hd, hlt]
  · intro hd
    simp [stepCursor, hd]

/-- C7: for a statement whose compilation is fully authorized, running
it (via `exec` or a PreparedStatement invocation) fails with
ParameterCountError exactly when the number of supplied parameters
differs from the statement's placeholder count. -/
theorem param_count_error_iff (db : DbState) (st : Statement) (params : List Val)
    (hok : firstDenial st.actions = none) :
    (runStmt db st params).2 = some SqlError.parameterCount ↔
      params.length ≠ st.nParams := by
  by_cases h : params.length = st.nParams
  · simp [runStmt, hok, h]
  · simp [runStmt, hok, h]

/-- C8: statements that directly begin a transaction or create a
savepoint are denied with the authorization error and leave the engine
state unchanged, so raw SQL transaction control is never reachable
through statement execution. -/
theorem txn_control_denied (db : DbState) (st : Statement) (params : List Val)
    (h : SqlAction.beginTxn ∈ st.actions ∨ ∃ nm, SqlAction.savepoint nm ∈ st.actions) :
    runStmt db st params = (db, some SqlError.authorization) := by
  have hfd : firstDenial st.actions = some SqlError.authorization := by
    rcases h with hb | ⟨nm, hs⟩
    · exact firstDenial_of_denied_mem st.actions SqlAction.beginTxn hb
        (by simp [authorize])
    · exact firstDenial_of_denied_mem st.actions (SqlAction.savepoint nm) hs
        (by simp [authorize])
  simp [runStmt, hfd]

/-- C9: a SELECT result column without an AS alias is keyed by the
literal SQL expression text of the column — `SELECT 123` yields one row
keying "123" to 123 and `SELECT ? + ?` bound to 123 and 456 yields one
row keying "? + ?" to 579 — while the raw view yields the same values
as an ordered sequence in column order. -/
theorem unaliased_column_keys (e : Expr) (cols : List SelectCol)
    (params : List Val) :
    colKey (SelectCol.mk e none) = exprText e ∧
    rawRow cols params = (keyedRow cols params).map Prod.snd ∧
    keyedRow [SelectCol.mk (Expr.lit 123) none] [] = [("123", 123)] ∧
    keyedRow [SelectCol.mk (Expr.add (Expr.param 0) (Expr.param 1)) none]
      [123, 456] = [("? + ?", 579)] ∧
    rawRow [SelectCol.mk (Expr.add (Expr.param 0) (Expr.param 1)) none]
      [123, 456] = [579] := by
  refine ⟨rfl, ?_, by decide, by decide, by decide⟩
  rw [keyedRow, rawRow, List.map_map]
  rfl

/-- C10: the voluntary size limit starts at 1073741823 pages times 4096
bytes, and assigning it then reading it returns the assigned value. -/
theorem voluntary_size_limit_roundtrip (s : SizeAccounting) (n : Int) :
    initialSizeAccounting.voluntarySizeLimit = 1073741823 * 4096 ∧
    (setVoluntarySizeLimit n s).voluntarySizeLimit = n := by
  exact ⟨rfl, rfl⟩

/-! ### Witnesses -/

/-- Witness for the nested-rollback claim, mirroring the sql-test.js
scenario: with 3 durable, an outer frame puts 6, an inner frame puts 7
and rolls back, and afterwards the key still reads 3. -/
theorem nested_rollback_flattens_witness :
    transaction (Work.seq (Work.put "txnTest" 6)
        (Work.seq (nestW 1 (Work.seq (Work.put "txnTest" 7) Work.rollback)) Work.skip))
      (GatewayState.mk [("txnTest", 3)] []) =
      (flushState (GatewayState.mk [("txnTest", 3)] []), none) ∧
    getVisible (transaction (Work.seq (Work.put "txnTest" 6)
        (Work.seq (nestW 1 (Work.seq (Work.put "txnTest" 7) Work.rollback)) Work.skip))
      (GatewayState.mk [("txnTest", 3)] [])).1 "txnTest" =
      getVisible (GatewayState.mk [("txnTest", 3)] []) "txnTest" :=
  ⟨(nested_rollback_flattens 1 (Work.put "txnTest" 6) (Work.put "txnTest" 7)
      Work.skip (GatewayState.mk [("txnTest", 3)] []) (by decide)).1,
   (nested_rollback_flattens 1 (Work.put "txnTest" 6) (Work.put "txnTest" 7)
      Work.skip (GatewayState.mk [("txnTest", 3)] []) (by decide)).2 "txnTest"⟩

/-- Witness for the transaction round-trip claim at the sql-test.js
values: a committed put of 1 is read back, an explicitly rolled-back
put of 4 and a failing put of 5 are both discarded, and the failure
code 9 is re-raised. -/
theorem txn_put_roundtrip_witness :
    ((transaction (Work.seq Work.skip (Work.seq (Work.put "txnTest" 1) Work.skip))
        (GatewayState.mk [("txnTest", 0)] [])).2 = none ∧
      getVisible (transaction (Work.seq Work.skip (Work.seq (Work.put "txnTest" 1) Work.skip))
        (GatewayState.mk [("txnTest", 0)] [])).1 "txnTest" = some 1) ∧
    ((transaction (Work.seq (Work.put "txnTest" 4) Work.rollback)
        (GatewayState.mk [("txnTest", 0)] [])).2 = none ∧
      getVisible (transaction (Work.seq (Work.put "txnTest" 4) Work.rollback)
        (GatewayState.mk [("txnTest", 0)] [])).1 "txnTest" =
        getVisible (GatewayState.mk [("txnTest", 0)] []) "txnTest") ∧
    ((transaction (Work.seq (Work.put "txnTest" 5) (Work.fail 9))
        (GatewayState.mk [("txnTest", 0)] [])).2 = some 9 ∧
      getVisible (transaction (Work.seq (Work.put "txnTest" 5) (Work.fail 9))
        (GatewayState.mk [("txnTest", 0)] [])).1 "txnTest" =
        getVisible (GatewayState.mk [("txnTest", 0)] []) "txnTest") :=
  ⟨(txn_put_roundtrip (GatewayState.mk [("txnTest", 0)] []) "txnTest" 1).1
      Work.skip Work.skip (GatewayState.mk [("txnTest", 0)] [("txnTest", 1)])
      (by decide) (by decide),
   (txn_put_roundtrip (GatewayState.mk [("txnTest", 0)] []) "txnTest" 1).2.1
      (Work.seq (Work.put "txnTest" 4) Work.rollback)
      (GatewayState.mk [("txnTest", 0)] [("txnTest", 4)]) (by decide),
   (txn_put_roundtrip (GatewayState.mk [("txnTest", 0)] []) "txnTest" 1).2.2
      (Work.seq (Work.put "txnTest" 5) (Work.fail 9))
      (GatewayState.mk [("txnTest", 0)] [("txnTest", 5)]) true 9 (by decide)⟩

/-- Witness for the reserved-name claim at the names sql-test.js uses:
the hidden KV table, the engine version function and the ordinary user
table. -/
theorem reserved_names_denied_witness :
    runStmt (DbState.mk [] false) (Statement.mk 0 [SqlAction.createTable "_cf_invalid"]) [] =
      (DbState.mk [] false, some SqlError.authorization) ∧
    runStmt (DbState.mk [] false) (Statement.mk 0 [SqlAction.readColumn "_cf_invalid" "key"]) [] =
      (DbState.mk [] false, some SqlError.authorization) ∧
    runStmt (DbState.mk [] false)
        (Statement.mk 0 [SqlAction.pragmaRead "table_info" (some "_cf_invalid")]) [] =
      (DbState.mk [] false, some SqlError.authorization) ∧
    runStmt (DbState.mk [] false) (Statement.mk 0 [SqlAction.callFunction "sqlite_version"]) [] =
      (DbState.mk [] false, some SqlError.authorization) ∧
    (runStmt (DbState.mk [] false)
        (Statement.mk 0 [SqlAction.pragmaRead "table_info" (some "myTable")]) []).2 = none :=
  reserved_names_denied (DbState.mk [] false) [] 0 "_cf_invalid" "sqlite_version"
    "myTable" "key" (by decide) (by decide) (by decide)

/-- Witness for the amended boolean-pragma claim: the sql-test.js value
"tRuE" is accepted and sets the flag. -/
theorem bool_pragma_value_parsing_witness :
    runStmt (DbState.mk [] false)
        (Statement.mk 0 [SqlAction.pragmaWrite "foreign_keys" "tRuE"]) [] =
      (DbState.mk [] true, none) :=
  (bool_pragma_value_parsing "tRuE" (DbState.mk [] false)).2.1 (by decide)

/-- Witness for the cursor-invalidation claim at the sql-test.js
scenario (a one-row SELECT whose prior cursor is re-run): the not-done
cursor is invalidated and fails, the exhausted cursor stays Done and
yields nothing. -/
theorem reinvoke_invalidates_cursor_witness :
    (cursorStatus (invokePrepared (PreparedState.mk 1)).1 (Cursor.mk 1 0 false) =
        CursorStatus.Invalidated ↔ (Cursor.mk 1 0 false).done = false) ∧
    stepCursor (invokePrepared (PreparedState.mk 1)).1 [789] (Cursor.mk 1 0 false) =
      Except.error SqlError.cursorInvalidated ∧
    stepCursor (invokePrepared (PreparedState.mk 1)).1 [789] (Cursor.mk 1 1 true) =
      Except.ok (none, Cursor.mk 1 1 true) :=
  ⟨(reinvoke_invalidates_cursor (PreparedState.mk 1) (Cursor.mk 1 0 false) [789] rfl).1,
   (reinvoke_invalidates_cursor (PreparedState.mk 1) (Cursor.mk 1 0 false) [789] rfl).2.1 rfl,
   (reinvoke_invalidates_cursor (PreparedState.mk 1) (Cursor.mk 1 1 true) [789] rfl).2.2 rfl⟩

/-- Witness for the parameter-count claim: a one-placeholder statement
over an ordinary table invoked with no parameters fails with
ParameterCountError. -/
theorem param_count_error_iff_witness :
    (runStmt (DbState.mk [] false)
        (Statement.mk 1 [SqlAction.readColumn "myTable" "foo"]) []).2 =
      some SqlError.parameterCount :=
  (param_count_error_iff (DbState.mk [] false)
      (Statement.mk 1 [SqlAction.readColumn "myTable" "foo"]) [] (by decide)).mpr
    (by decide)

/-- Witness for the transaction-control claim: BEGIN TRANSACTION is
denied and the engine state is unchanged. -/
theorem txn_control_denied_witness :
    runStmt (DbState.mk [] false) (Statement.mk 0 [SqlAction.beginTxn]) [] =
      (DbState.mk [] false, some SqlError.authorization) :=
  txn_control_denied (DbState.mk [] false) (Statement.mk 0 [SqlAction.beginTxn]) []
    (Or.inl (by decide))
